import Mathlib

/-!
Shallow embedding of `jaxmarl/environments/mabrax/multi_quad_env.py`
(class `MultiQuadEnv` and its helper functions) over exact real arithmetic.

JAX arrays are modelled as `List ℝ`; 3-vectors and quaternions read from the
physics snapshot are modelled as records (`V3`, `Quat`).  The external physics
engine (`pipeline_init` / `pipeline_step`), the random-stream primitives
(`jax.random.split` / `jax.random.uniform`) and scene loading are external
collaborators: they appear as opaque function parameters, and `step` takes the
post-physics snapshot as an argument.  Everything the environment itself
computes is translated line by line from the source.
-/

/-- A 3-vector, as exposed by the physics snapshot (`xpos`, `cvel` slices…). -/
structure V3 where
  x : ℝ
  y : ℝ
  z : ℝ

/-- The components of a 3-vector in array order. -/
def V3.toList (v : V3) : List ℝ := [v.x, v.y, v.z]

/-- Elementwise difference of 3-vectors (JAX array subtraction). -/
noncomputable def V3.sub (a b : V3) : V3 := ⟨a.x - b.x, a.y - b.y, a.z - b.z⟩

/-- A quaternion in `[w, x, y, z]` order, as exposed by `xquat`. -/
structure Quat where
  w : ℝ
  x : ℝ
  y : ℝ
  z : ℝ

/-- Embeds `jp.linalg.norm`: Euclidean norm of an array. -/
noncomputable def jp_norm (v : List ℝ) : ℝ := Real.sqrt ((v.map (fun a => a ^ 2)).sum)

/-- Sum of squares of the components (so `jp_norm v = √(sumSq v)`). -/
noncomputable def sumSq (v : List ℝ) : ℝ := (v.map (fun a => a ^ 2)).sum

/-- Embeds `jp.dot`: dot product of two arrays. -/
noncomputable def jp_dot (v1 v2 : List ℝ) : ℝ := (List.zipWith (fun a b => a * b) v1 v2).sum

/-- Embeds `jp.mean`: arithmetic mean of the components. -/
noncomputable def jp_mean (v : List ℝ) : ℝ := v.sum / (v.length : ℝ)

/-- Embeds `jp.clip x lo hi`. -/
noncomputable def jp_clip (a lo hi : ℝ) : ℝ := min (max a lo) hi

/-- Embeds `jp.radians`: degrees to radians. -/
noncomputable def jp_radians (d : ℝ) : ℝ := d * (Real.pi / 180)

/-- Python slice `v[a:b]` (for `0 ≤ a ≤ b ≤ len v`). -/
def pyslice (v : List ℝ) (a b : Nat) : List ℝ := (v.drop a).take (b - a)

/-- Embeds `jp_R_from_quat` (multi_quad_env.py lines 17-24): rotation matrix from a
quaternion `[w,x,y,z]`, as a list of three rows.  The quaternion is first
normalized by its Euclidean norm (no epsilon guard, exactly as the source). -/
noncomputable def jp_R_from_quat (q : Quat) : List (List ℝ) :=
  let n := Real.sqrt (q.w ^ 2 + q.x ^ 2 + q.y ^ 2 + q.z ^ 2)
  let w := q.w / n
  let x := q.x / n
  let y := q.y / n
  let z := q.z / n
  [[1 - 2*(y*y + z*z), 2*(x*y - z*w), 2*(x*z + y*w)],
   [2*(x*y + z*w), 1 - 2*(x*x + z*z), 2*(y*z - x*w)],
   [2*(x*z - y*w), 2*(y*z + x*w), 1 - 2*(x*x + y*y)]]

/-- Row-major flattening (`.ravel()`). -/
def ravel (m : List (List ℝ)) : List ℝ := m.flatten

/-- Column `i` of a row-list matrix (`m[:, i]`). -/
def jp_col (m : List (List ℝ)) (i : Nat) : List ℝ := m.map (fun r => r.getD i 0)

/-- Embeds `jp_angle_between` (multi_quad_env.py lines 26-33): angle between two
vectors, with the `1e-6` denominator guard and the cosine clip. -/
noncomputable def jp_angle_between (v1 v2 : List ℝ) : ℝ :=
  let norm1 := jp_norm v1
  let norm2 := jp_norm v2
  let dot := jp_dot v1 v2
  let cos_theta := dot / (norm1 * norm2 + 1e-6)
  Real.arccos (jp_clip cos_theta (-1.0) 1.0)

/-- Constant `self.max_thrust` (line 72). -/
noncomputable def max_thrust : ℝ := 0.11772

/-- Constant `self.goal_center = self.target_position` (lines 74-76). -/
noncomputable def target_position : V3 := ⟨0, 0, 1⟩

/-- The physics snapshot (`pipeline_state`), restricted to the fields the
environment reads: world positions (`xpos`), orientations (`xquat`), the
linear/angular halves of the spatial velocity `cvel` and acceleration `cacc`
for the three cached bodies, and the simulation time. -/
structure Snapshot where
  payload_pos : V3
  payload_linvel : V3
  q1_pos : V3
  q1_quat : Quat
  q1_linvel : V3
  q1_angvel : V3
  q1_linacc : V3
  q1_angacc : V3
  q2_pos : V3
  q2_quat : Quat
  q2_linvel : V3
  q2_angvel : V3
  q2_linacc : V3
  q2_angacc : V3
  time : ℝ

/-- Embeds `_get_obs` (lines 149-199): the observation vector, concatenated exactly
in source order. -/
noncomputable def _get_obs (data : Snapshot) (last_action : List ℝ)
    (tgt : V3) : List ℝ :=
  let payload_error := V3.sub tgt data.payload_pos
  let quad1_rel := V3.sub data.q1_pos data.payload_pos
  let quad1_rot := ravel (jp_R_from_quat data.q1_quat)
  let quad2_rel := V3.sub data.q2_pos data.payload_pos
  let quad2_rot := ravel (jp_R_from_quat data.q2_quat)
  payload_error.toList ++ data.payload_linvel.toList ++
  quad1_rel.toList ++ quad1_rot ++ data.q1_linvel.toList ++ data.q1_angvel.toList ++
  data.q1_linacc.toList ++ data.q1_angacc.toList ++
  quad2_rel.toList ++ quad2_rot ++ data.q2_linvel.toList ++ data.q2_angvel.toList ++
  data.q2_linacc.toList ++ data.q2_angacc.toList ++
  last_action

/-- Line 108: `prev_last_action = state.obs[-(self.sys.nu+1):-1]` with
`nu = 8` actuators, i.e. the Python slice `obs[-9:-1]`. -/
def extract_prev_action (obs : List ℝ) : List ℝ :=
  (obs.drop (obs.length - 9)).take (obs.length - 1 - (obs.length - 9))

/-- Lines 110-111: scale actions from [-1, 1] to thrust commands. -/
noncomputable def action_to_thrust (action : List ℝ) : List ℝ :=
  let thrust_cmds := action.map (fun a => 0.5 * (a + 1.0))
  thrust_cmds.map (fun c => c * max_thrust)

/-- Lines 119-123: tilt angle of a body, `jp_angle_between(R[:, 2], up)`. -/
noncomputable def tilt_angle (q : Quat) : ℝ :=
  jp_angle_between (jp_col (jp_R_from_quat q) 2) [0.0, 0.0, 1.0]

/-- Lines 125-127: inter-agent distance from the absolute body positions. -/
noncomputable def quad_distance_abs (ps : Snapshot) : ℝ :=
  jp_norm ((V3.sub ps.q1_pos ps.q2_pos).toList)

/-- Term `distance_reward` (lines 212-214). -/
noncomputable def distance_reward_fn (payload_error : List ℝ) : ℝ :=
  let dis := jp_norm payload_error
  let z_error := |payload_error.getD 2 0|
  (1 - dis + Real.exp (-10 * dis)) + Real.exp (-10 * z_error) - z_error ^ 2

/-- Term `velocity_towards_target` (lines 217-219). -/
noncomputable def velocity_towards_target_fn (payload_error payload_linvel : List ℝ) : ℝ :=
  let norm_error := max (jp_norm payload_error) 1e-6
  let norm_linvel := max (jp_norm payload_linvel) 1e-6
  jp_dot payload_error payload_linvel / (norm_error * norm_linvel)

/-- Term `safe_distance_reward` (line 225). -/
noncomputable def safe_distance_reward_fn (quad_distance : ℝ) : ℝ :=
  jp_clip ((quad_distance - 0.11) / (0.15 - 0.11)) 0 1

/-- Term `smooth_action_penalty` (line 228). -/
noncomputable def smooth_action_penalty_fn (action last_action : List ℝ) : ℝ :=
  jp_mean ((List.zipWith (fun a b => a - b) action last_action).map (fun d => |d| / max_thrust))

/-- Term `action_energy_penalty` (line 229). -/
noncomputable def action_energy_penalty_fn (action : List ℝ) : ℝ :=
  jp_mean (action.map (fun a => |a|)) / max_thrust

/-- Term `up_reward` (line 232). -/
noncomputable def up_reward_fn (angle_q1 angle_q2 : ℝ) : ℝ :=
  Real.exp (-|angle_q1|) + Real.exp (-|angle_q2|)

/-- Term `ang_vel_penalty` (lines 235-237). -/
noncomputable def ang_vel_penalty_fn (w1 w2 : List ℝ) : ℝ :=
  0.1 * (jp_norm w1 ^ 2 + jp_norm w2 ^ 2)

/-- Term `linvel_quad_penalty` (lines 238-240). -/
noncomputable def linvel_quad_penalty_fn (v1 v2 : List ℝ) : ℝ :=
  0.1 * (jp_norm v1 ^ 2 + jp_norm v2 ^ 2)

open Classical

/-- Embeds `calc_reward` (lines 201-256).  Boolean flags arrive as propositions
(JAX booleans); `5.0 * collision` becomes `5.0 * (if collision then 1 else 0)`.
`sim_time`, `target_position` and `data` are accepted but never read, exactly
as in the source. -/
noncomputable def calc_reward (obs : List ℝ) (sim_time : ℝ)
    (collision out_of_bounds : Prop) (action : List ℝ) (angle_q1 angle_q2 : ℝ)
    (last_action : List ℝ) (tgt : V3) (data : Snapshot) : ℝ :=
  let team_obs := pyslice obs 0 6
  let payload_error := pyslice team_obs 0 3
  let payload_linvel := pyslice team_obs 3 6
  let linvel_penalty := jp_norm payload_linvel
  let distance_reward := distance_reward_fn payload_error
  let velocity_towards_target := velocity_towards_target_fn payload_error payload_linvel
  let quad1_obs := pyslice obs 6 30
  let quad2_obs := pyslice obs 30 54
  let quad_distance := jp_norm (List.zipWith (fun a b => a - b)
    (pyslice quad1_obs 0 3) (pyslice quad2_obs 0 3))
  let safe_distance_reward := safe_distance_reward_fn quad_distance
  let collision_penalty := 5.0 * (if collision then (1 : ℝ) else 0)
  let out_of_bounds_penalty := 50.0 * (if out_of_bounds then (1 : ℝ) else 0)
  let smooth_action_penalty := smooth_action_penalty_fn action last_action
  let action_energy_penalty := action_energy_penalty_fn action
  let up_reward := up_reward_fn angle_q1 angle_q2
  let ang_vel_penalty := ang_vel_penalty_fn (pyslice quad1_obs 15 18) (pyslice quad2_obs 15 18)
  let linvel_quad_penalty := linvel_quad_penalty_fn (pyslice quad1_obs 9 12) (pyslice quad2_obs 9 12)
  let reward := 10 * distance_reward + safe_distance_reward + velocity_towards_target
    + up_reward - 10 * linvel_penalty - collision_penalty - out_of_bounds_penalty
    - 2 * smooth_action_penalty - action_energy_penalty - ang_vel_penalty
    - 5 * linvel_quad_penalty
  reward / 25.0

/-- What `step` returns (the fields of the updated `State` the environment
itself computes; the snapshot inside is the `pipeline_step` output). -/
structure StepOut where
  obs : List ℝ
  reward : ℝ
  done : ℝ

/-- Embeds `step` (lines 105-147).  `ps` is the snapshot returned by the external
`pipeline_step` engine call; everything after that call is translated line by
line.  `done * 1.0` is the boolean-to-float cast of the source. -/
noncomputable def step (obs action : List ℝ) (ps : Snapshot) (max_time : ℝ) : StepOut :=
  let prev_last_action := extract_prev_action obs
  let action_scaled := action_to_thrust action
  let angle_q1 := tilt_angle ps.q1_quat
  let angle_q2 := tilt_angle ps.q2_quat
  let quad_distance := quad_distance_abs ps
  let collision : Prop := quad_distance < 0.11
  let out_of_bounds : Prop :=
    (((((|angle_q1| > jp_radians 80 ∨ |angle_q2| > jp_radians 80)
      ∨ ps.q1_pos.z < 0.05)
      ∨ ps.q2_pos.z < 0.05)
      ∨ ps.q1_pos.z < ps.payload_pos.z)
      ∨ ps.q2_pos.z < ps.payload_pos.z)
      ∨ ps.payload_pos.z < 0.05
  let newObs := _get_obs ps prev_last_action target_position
  let reward := calc_reward newObs ps.time collision out_of_bounds action_scaled
    angle_q1 angle_q2 prev_last_action target_position ps
  let done : ℝ := (if (out_of_bounds ∨ collision) ∨ ps.time > max_time then (1 : ℝ) else 0) * 1.0
  ⟨newObs, reward, done⟩

/-- Embeds `reset` (lines 88-103), parameterized over the external random-stream
primitives (`jax.random.split` into three handles, `jax.random.uniform`) and
the external `pipeline_init`.  `qpos0`/`nq`/`nv`/`nu` come from the loaded
system. -/
noncomputable def reset {Rng : Type} (split3 : Rng → Rng × Rng × Rng)
    (uniform : Rng → Nat → ℝ → ℝ → List ℝ)
    (pipeline_init : List ℝ → List ℝ → Snapshot)
    (qpos0 : List ℝ) (nq nv nu : Nat) (reset_noise_scale : ℝ)
    (rng : Rng) : (List ℝ × List ℝ) × StepOut :=
  let rngs := split3 rng
  let rng1 := rngs.2.1
  let rng2 := rngs.2.2
  let qpos := List.zipWith (fun a b => a + b) qpos0
    (uniform rng1 nq (-reset_noise_scale) reset_noise_scale)
  let qvel := uniform rng2 nv (-reset_noise_scale) reset_noise_scale
  let pipeline_state := pipeline_init qpos qvel
  let last_action := List.replicate nu (0 : ℝ)
  let obs := _get_obs pipeline_state last_action target_position
  ((qpos, qvel), ⟨obs, 0, 0⟩)

/-- An all-zero snapshot with identity orientations. -/
noncomputable def snap0 : Snapshot :=
  ⟨⟨0,0,0⟩, ⟨0,0,0⟩, ⟨0,0,0⟩, ⟨1,0,0,0⟩, ⟨0,0,0⟩, ⟨0,0,0⟩, ⟨0,0,0⟩, ⟨0,0,0⟩,
   ⟨0,0,0⟩, ⟨1,0,0,0⟩, ⟨0,0,0⟩, ⟨0,0,0⟩, ⟨0,0,0⟩, ⟨0,0,0⟩, 0⟩

/-- Like `snap0`, but agent-2's angular acceleration is `(0,0,1)`, so the
observation component at offset 53 is `1`. -/
noncomputable def snapA : Snapshot :=
  ⟨⟨0,0,0⟩, ⟨0,0,0⟩, ⟨0,0,0⟩, ⟨1,0,0,0⟩, ⟨0,0,0⟩, ⟨0,0,0⟩, ⟨0,0,0⟩, ⟨0,0,0⟩,
   ⟨0,0,0⟩, ⟨1,0,0,0⟩, ⟨0,0,0⟩, ⟨0,0,0⟩, ⟨0,0,0⟩, ⟨0,0,1⟩, 0⟩

/-- The "golden scenario" observation: payload error zero, all velocity and
acceleration slots zero, both rotation matrices the identity (upright, yaw
zero), agent relative positions `(0.15,0,0)` and `(0,0,0)` (inter-agent
distance 0.15), previous-action tail zero. -/
noncomputable def goldenObs : List ℝ :=
  [0, 0, 0,
   0, 0, 0,
   0.15, 0, 0,
   1, 0, 0, 0, 1, 0, 0, 0, 1,
   0, 0, 0,  0, 0, 0,  0, 0, 0,  0, 0, 0,
   0, 0, 0,
   1, 0, 0, 0, 1, 0, 0, 0, 1,
   0, 0, 0,  0, 0, 0,  0, 0, 0,  0, 0, 0,
   0, 0, 0, 0, 0, 0, 0, 0]

/-- C10: the reward returned by `calc_reward` is independent of `sim_time`,
`target_position` and `data`: two calls agreeing on the observation, the flags,
the thrust command, the tilt angles and the previous action return the same
value no matter how those three arguments differ. -/
theorem calc_reward_ignores_time_target_data (obs : List ℝ) (t1 t2 : ℝ)
    (c o : Prop) (action : List ℝ) (a1 a2 : ℝ) (la : List ℝ) (tp1 tp2 : V3)
    (d1 d2 : Snapshot) :
    calc_reward obs t1 c o action a1 a2 la tp1 d1
      = calc_reward obs t2 c o action a1 a2 la tp2 d2 := rfl

/-- C7: with every other input of `calc_reward` held fixed, turning the
collision flag on lowers the returned reward by exactly `5.0 / 25.0`, and
turning the out-of-bounds flag on lowers it by exactly `50.0 / 25.0`. -/
theorem calc_reward_flag_sensitivity (obs : List ℝ) (t : ℝ) (c o : Prop)
    (action : List ℝ) (a1 a2 : ℝ) (la : List ℝ) (tp : V3) (d : Snapshot) :
    calc_reward obs t True o action a1 a2 la tp d
      = calc_reward obs t False o action a1 a2 la tp d - 5.0 / 25.0 ∧
    calc_reward obs t c True action a1 a2 la tp d
      = calc_reward obs t c False action a1 a2 la tp d - 50.0 / 25.0 := by
  constructor <;>
    (simp only [calc_reward, if_true, if_false]; ring)

/-- C5: action scaling is `0.5*(action+1)*max_thrust` elementwise with no
clamping (`action = 3` overshoots to `2*max_thrust`); `-1 ↦ 0`, `1 ↦
max_thrust`, `0 ↦ max_thrust/2`, and any action with components in `[-1,1]`
yields thrusts in `[0, max_thrust]`. -/
theorem action_to_thrust_spec (action : List ℝ)
    (h : ∀ a ∈ action, -1 ≤ a ∧ a ≤ 1) :
    action_to_thrust [-1, 1, 0, 3] = [0, max_thrust, max_thrust / 2, 2 * max_thrust] ∧
    ∀ t ∈ action_to_thrust action, 0 ≤ t ∧ t ≤ max_thrust := by
  constructor
  · simp only [action_to_thrust, List.map_cons, List.map_nil, max_thrust]
    norm_num
  · intro t ht
    simp only [action_to_thrust, List.map_map, List.mem_map, Function.comp] at ht
    obtain ⟨a, ha, rfl⟩ := ht
    obtain ⟨h1, h2⟩ := h a ha
    have hm : (0 : ℝ) ≤ max_thrust := by rw [max_thrust]; norm_num
    constructor
    · have hc : (0 : ℝ) ≤ 0.5 * (a + 1.0) := by linarith
      exact mul_nonneg hc hm
    · have hc : 0.5 * (a + 1.0) ≤ 1 := by linarith
      calc 0.5 * (a + 1.0) * max_thrust ≤ 1 * max_thrust :=
            mul_le_mul_of_nonneg_right hc hm
        _ = max_thrust := one_mul _

/-- Witness for C5 at the concrete action `[0.5]`. -/
theorem action_to_thrust_spec_witness :
    (∀ a ∈ [(0.5 : ℝ)], -1 ≤ a ∧ a ≤ 1) ∧
    (action_to_thrust [-1, 1, 0, 3] = [0, max_thrust, max_thrust / 2, 2 * max_thrust] ∧
     ∀ t ∈ action_to_thrust [(0.5 : ℝ)], 0 ≤ t ∧ t ≤ max_thrust) :=
  ⟨by intro a ha; rw [List.mem_singleton] at ha; subst ha; norm_num,
   action_to_thrust_spec [(0.5 : ℝ)]
     (by intro a ha; rw [List.mem_singleton] at ha; subst ha; norm_num)⟩

/-- C1: `step`'s "previous action" extraction `obs[-(nu+1):-1] = obs[-9:-1]`
reads offsets 53–61, not the stored previous-action slice at offsets 54–62.
On an observation whose agent-2 angular-acceleration z-component is `1` and
whose stored previous action is the zero vector, the extraction returns
`[1,0,0,0,0,0,0,0]` — it picks up the acceleration component and drops the
action's last component — while the actual tail slice is all zeros; `step`
then writes this corrupted vector into the new observation's tail. -/
theorem prev_action_extraction_bug :
    extract_prev_action (_get_obs snapA (List.replicate 8 0) target_position)
      = [1, 0, 0, 0, 0, 0, 0, 0] ∧
    pyslice (_get_obs snapA (List.replicate 8 0) target_position) 54 62
      = List.replicate 8 0 ∧
    extract_prev_action (_get_obs snapA (List.replicate 8 0) target_position)
      ≠ pyslice (_get_obs snapA (List.replicate 8 0) target_position) 54 62 ∧
    (step (_get_obs snapA (List.replicate 8 0) target_position)
        (List.replicate 8 0) snapA 10).obs
      = _get_obs snapA
          (extract_prev_action (_get_obs snapA (List.replicate 8 0) target_position))
          target_position := by
  refine ⟨rfl, rfl, ?_, rfl⟩
  intro hc
  have h1 : extract_prev_action (_get_obs snapA (List.replicate 8 0) target_position)
      = [1, 0, 0, 0, 0, 0, 0, 0] := rfl
  have h2 : pyslice (_get_obs snapA (List.replicate 8 0) target_position) 54 62
      = List.replicate 8 0 := rfl
  rw [h1, h2] at hc
  have h3 := congrArg (fun l => l.getD 0 0) hc
  simp at h3

set_option maxHeartbeats 1600000 in
/-- C4: for every snapshot, target and 8-component previous action, the built
observation has length exactly 62 with the fixed layout: payload error at
0–3, payload linear velocity at 3–6, the agent-1 block at 6–30, the agent-2
block at 30–54 (each: relative position, flattened rotation matrix, linear
velocity, angular velocity, linear acceleration, angular acceleration), and
the raw previous action at 54–62. -/
theorem obs_length_and_layout (d : Snapshot) (la : List ℝ) (tgt : V3)
    (h : la.length = 8) :
    (_get_obs d la tgt).length = 62 ∧
    pyslice (_get_obs d la tgt) 0 3 = (V3.sub tgt d.payload_pos).toList ∧
    pyslice (_get_obs d la tgt) 3 6 = d.payload_linvel.toList ∧
    pyslice (_get_obs d la tgt) 6 30 =
      (V3.sub d.q1_pos d.payload_pos).toList ++ ravel (jp_R_from_quat d.q1_quat) ++
      d.q1_linvel.toList ++ d.q1_angvel.toList ++ d.q1_linacc.toList ++
      d.q1_angacc.toList ∧
    pyslice (_get_obs d la tgt) 30 54 =
      (V3.sub d.q2_pos d.payload_pos).toList ++ ravel (jp_R_from_quat d.q2_quat) ++
      d.q2_linvel.toList ++ d.q2_angvel.toList ++ d.q2_linacc.toList ++
      d.q2_angacc.toList ∧
    pyslice (_get_obs d la tgt) 54 62 = la := by
  refine ⟨?_, rfl, rfl, rfl, rfl, ?_⟩
  · have hl : (_get_obs d la tgt).length = 54 + la.length := by
      simp [_get_obs, ravel, jp_R_from_quat, V3.toList]
      omega
    rw [hl, h]
  · show ((_get_obs d la tgt).drop 54).take (62 - 54) = la
    have hd : (_get_obs d la tgt).drop 54 = la := rfl
    rw [hd, show 62 - 54 = 8 from rfl, ← h, List.take_length]

set_option maxHeartbeats 1600000 in
/-- Witness for C4 at the all-zero snapshot and the zero action vector. -/
theorem obs_length_and_layout_witness :
    (List.replicate 8 (0 : ℝ)).length = 8 ∧
    ((_get_obs snap0 (List.replicate 8 0) target_position).length = 62 ∧
     pyslice (_get_obs snap0 (List.replicate 8 0) target_position) 0 3
       = (V3.sub target_position snap0.payload_pos).toList ∧
     pyslice (_get_obs snap0 (List.replicate 8 0) target_position) 3 6
       = snap0.payload_linvel.toList ∧
     pyslice (_get_obs snap0 (List.replicate 8 0) target_position) 6 30 =
       (V3.sub snap0.q1_pos snap0.payload_pos).toList ++
       ravel (jp_R_from_quat snap0.q1_quat) ++ snap0.q1_linvel.toList ++
       snap0.q1_angvel.toList ++ snap0.q1_linacc.toList ++ snap0.q1_angacc.toList ∧
     pyslice (_get_obs snap0 (List.replicate 8 0) target_position) 30 54 =
       (V3.sub snap0.q2_pos snap0.payload_pos).toList ++
       ravel (jp_R_from_quat snap0.q2_quat) ++ snap0.q2_linvel.toList ++
       snap0.q2_angvel.toList ++ snap0.q2_linacc.toList ++ snap0.q2_angacc.toList ∧
     pyslice (_get_obs snap0 (List.replicate 8 0) target_position) 54 62
       = List.replicate 8 0) :=
  ⟨List.length_replicate 8 0,
   obs_length_and_layout snap0 (List.replicate 8 0) target_position
     (List.length_replicate 8 0)⟩

/-- C9: `reset` is deterministic in its random-stream handle — two calls with
the same handle yield identical initial joint positions, velocities and
observations — and it sets the previous action recorded in the observation
tail to the zero vector, the reward to 0 and the termination flag to 0. -/
theorem reset_deterministic {Rng : Type} (split3 : Rng → Rng × Rng × Rng)
    (uniform : Rng → Nat → ℝ → ℝ → List ℝ)
    (pipeline_init : List ℝ → List ℝ → Snapshot)
    (qpos0 : List ℝ) (nq nv nu : Nat) (noise : ℝ) (rng : Rng) :
    (reset split3 uniform pipeline_init qpos0 nq nv nu noise rng).1.1
      = (reset split3 uniform pipeline_init qpos0 nq nv nu noise rng).1.1 ∧
    (reset split3 uniform pipeline_init qpos0 nq nv nu noise rng).1.2
      = (reset split3 uniform pipeline_init qpos0 nq nv nu noise rng).1.2 ∧
    (reset split3 uniform pipeline_init qpos0 nq nv nu noise rng).2.obs
      = (reset split3 uniform pipeline_init qpos0 nq nv nu noise rng).2.obs ∧
    (reset split3 uniform pipeline_init qpos0 nq nv nu noise rng).2.reward = 0 ∧
    (reset split3 uniform pipeline_init qpos0 nq nv nu noise rng).2.done = 0 ∧
    ((reset split3 uniform pipeline_init qpos0 nq nv nu noise rng).2.obs).drop 54
      = List.replicate nu 0 :=
  ⟨rfl, rfl, rfl, rfl, rfl, rfl⟩

/-- C2: after a step the returned termination flag is 0 or 1, and it is 1
exactly when collision (inter-agent distance < 0.11) or out-of-bounds (a tilt
angle magnitude above 80°, an agent below height 0.05, an agent below the
payload, or the payload below height 0.05) or elapsed time exceeding the
episode limit holds. -/
theorem step_done_iff (obs action : List ℝ) (ps : Snapshot) (max_time : ℝ) :
    ((step obs action ps max_time).done = 1 ∨ (step obs action ps max_time).done = 0) ∧
    ((step obs action ps max_time).done = 1 ↔
      (quad_distance_abs ps < 0.11 ∨
       ((|tilt_angle ps.q1_quat| > jp_radians 80 ∨ |tilt_angle ps.q2_quat| > jp_radians 80) ∨
        ps.q1_pos.z < 0.05 ∨ ps.q2_pos.z < 0.05 ∨
        ps.q1_pos.z < ps.payload_pos.z ∨ ps.q2_pos.z < ps.payload_pos.z ∨
        ps.payload_pos.z < 0.05) ∨
       ps.time > max_time)) := by
  have hdone : (step obs action ps max_time).done =
      (if (((((((|tilt_angle ps.q1_quat| > jp_radians 80 ∨ |tilt_angle ps.q2_quat| > jp_radians 80)
          ∨ ps.q1_pos.z < 0.05) ∨ ps.q2_pos.z < 0.05) ∨ ps.q1_pos.z < ps.payload_pos.z)
          ∨ ps.q2_pos.z < ps.payload_pos.z) ∨ ps.payload_pos.z < 0.05)
          ∨ quad_distance_abs ps < 0.11) ∨ ps.time > max_time
        then (1 : ℝ) else 0) * 1.0 := rfl
  rw [hdone, show (1.0 : ℝ) = 1 from by norm_num, mul_one]
  by_cases hC : (((((((|tilt_angle ps.q1_quat| > jp_radians 80 ∨ |tilt_angle ps.q2_quat| > jp_radians 80)
      ∨ ps.q1_pos.z < 0.05) ∨ ps.q2_pos.z < 0.05) ∨ ps.q1_pos.z < ps.payload_pos.z)
      ∨ ps.q2_pos.z < ps.payload_pos.z) ∨ ps.payload_pos.z < 0.05)
      ∨ quad_distance_abs ps < 0.11) ∨ ps.time > max_time
  · rw [if_pos hC]
    refine ⟨Or.inl rfl, ?_, fun _ => rfl⟩
    intro _
    tauto
  · rw [if_neg hC]
    refine ⟨Or.inr rfl, ?_, ?_⟩
    · intro h0
      exact absurd h0 (by norm_num)
    · intro hP
      exact absurd (by tauto :
        (((((((|tilt_angle ps.q1_quat| > jp_radians 80 ∨ |tilt_angle ps.q2_quat| > jp_radians 80)
          ∨ ps.q1_pos.z < 0.05) ∨ ps.q2_pos.z < 0.05) ∨ ps.q1_pos.z < ps.payload_pos.z)
          ∨ ps.q2_pos.z < ps.payload_pos.z) ∨ ps.payload_pos.z < 0.05)
          ∨ quad_distance_abs ps < 0.11) ∨ ps.time > max_time) hC

set_option maxHeartbeats 1600000 in
/-- C8: the inter-agent distance `calc_reward` computes from the observation
slices `obs[6:9]` and `obs[30:33]` (both positions relative to the payload)
equals the distance `|agent1_pos - agent2_pos|` between absolute positions
used by the collision check — the payload position cancels — and whenever
collision holds (that distance < 0.11) the safe-distance reward is 0. -/
theorem quad_distance_obs_consistent (d : Snapshot) (la : List ℝ) (tgt : V3) :
    jp_norm (List.zipWith (fun a b => a - b)
        (pyslice (pyslice (_get_obs d la tgt) 6 30) 0 3)
        (pyslice (pyslice (_get_obs d la tgt) 30 54) 0 3))
      = quad_distance_abs d ∧
    (quad_distance_abs d < 0.11 →
      safe_distance_reward_fn (jp_norm (List.zipWith (fun a b => a - b)
        (pyslice (pyslice (_get_obs d la tgt) 6 30) 0 3)
        (pyslice (pyslice (_get_obs d la tgt) 30 54) 0 3))) = 0) := by
  have h1 : pyslice (pyslice (_get_obs d la tgt) 6 30) 0 3
      = (V3.sub d.q1_pos d.payload_pos).toList := rfl
  have h2 : pyslice (pyslice (_get_obs d la tgt) 30 54) 0 3
      = (V3.sub d.q2_pos d.payload_pos).toList := rfl
  have key : jp_norm (List.zipWith (fun a b => a - b)
      (pyslice (pyslice (_get_obs d la tgt) 6 30) 0 3)
      (pyslice (pyslice (_get_obs d la tgt) 30 54) 0 3))
      = quad_distance_abs d := by
    rw [h1, h2]
    simp only [jp_norm, quad_distance_abs, V3.sub, V3.toList, List.zipWith_cons_cons,
      List.zipWith_nil_right, List.map_cons, List.map_nil, List.sum_cons, List.sum_nil]
    congr 1
    ring
  refine ⟨key, ?_⟩
  intro hlt
  rw [key]
  simp only [safe_distance_reward_fn, jp_clip]
  have hneg : (quad_distance_abs d - 0.11) / (0.15 - 0.11) < 0 := by
    apply div_neg_of_neg_of_pos
    · linarith
    · norm_num
  rw [max_eq_right hneg.le, min_eq_left (by norm_num : (0:ℝ) ≤ 1)]

set_option maxHeartbeats 1600000 in
/-- Witness for C8 at the all-zero snapshot (inter-agent distance 0 < 0.11). -/
theorem quad_distance_obs_consistent_witness :
    quad_distance_abs snap0 < 0.11 ∧
    safe_distance_reward_fn (jp_norm (List.zipWith (fun a b => a - b)
      (pyslice (pyslice (_get_obs snap0 (List.replicate 8 0) target_position) 6 30) 0 3)
      (pyslice (pyslice (_get_obs snap0 (List.replicate 8 0) target_position) 30 54) 0 3))) = 0 := by
  have hz : quad_distance_abs snap0 = 0 := by
    simp [quad_distance_abs, V3.sub, V3.toList, jp_norm, snap0, Real.sqrt_zero]
  have hlt : quad_distance_abs snap0 < 0.11 := by
    rw [hz]; norm_num
  exact ⟨hlt,
    (quad_distance_obs_consistent snap0 (List.replicate 8 0) target_position).2 hlt⟩

/-- The dot product of a vector with itself is its sum of squares. -/
theorem jp_dot_self (v : List ℝ) : jp_dot v v = sumSq v := by
  induction v with
  | nil => simp [jp_dot, sumSq]
  | cons a t ih =>
    simp only [jp_dot, sumSq, List.zipWith_cons_cons, List.map_cons, List.sum_cons] at ih ⊢
    rw [ih]
    ring

/-- A sum of squares is nonnegative. -/
theorem sumSq_nonneg (v : List ℝ) : 0 ≤ sumSq v := by
  induction v with
  | nil => simp [sumSq]
  | cons a t ih =>
    simp only [sumSq, List.map_cons, List.sum_cons] at ih ⊢
    have := sq_nonneg a
    linarith

/-- Dotting a vector with its negation gives minus its sum of squares. -/
theorem jp_dot_map_neg (v : List ℝ) : jp_dot v (v.map (fun a => -a)) = -(sumSq v) := by
  induction v with
  | nil => simp [jp_dot, sumSq]
  | cons a t ih =>
    simp only [jp_dot, sumSq, List.map_cons, List.zipWith_cons_cons, List.sum_cons] at ih ⊢
    rw [ih]
    ring

/-- Negating a vector preserves its sum of squares. -/
theorem sumSq_map_neg (v : List ℝ) : sumSq (v.map (fun a => -a)) = sumSq v := by
  induction v with
  | nil => rfl
  | cons a t ih =>
    simp only [sumSq, List.map_cons, List.sum_cons] at ih ⊢
    rw [ih]
    ring

/-- C6 counterexample: because of the `1e-6` added to the denominator, the
cosine fed to `arccos` for `(v, v)` is `|v|²/(|v|²+1e-6) < 1`, so
`angle_between(v, v)` is **not** `0` even for the unit vector `[1,0,0]`, and
`angle_between(v, -v)` is **not** `π`. -/
theorem angle_between_self_counterexample :
    jp_angle_between [1, 0, 0] [1, 0, 0] ≠ 0 ∧
    jp_angle_between [1, 0, 0] [-1, 0, 0] ≠ Real.pi := by
  have hn : jp_norm [(1 : ℝ), 0, 0] = 1 := by simp [jp_norm]
  have hn2 : jp_norm [(-1 : ℝ), 0, 0] = 1 := by simp [jp_norm]
  have hd1 : jp_dot [(1 : ℝ), 0, 0] [(1 : ℝ), 0, 0] = 1 := by simp [jp_dot]
  have hd2 : jp_dot [(1 : ℝ), 0, 0] [(-1 : ℝ), 0, 0] = -1 := by simp [jp_dot]
  constructor
  · have e : jp_angle_between [1, 0, 0] [1, 0, 0]
        = Real.arccos (1 / (1 * 1 + 1e-6)) := by
      simp only [jp_angle_between, jp_clip, hn, hd1]
      rw [max_eq_left (by norm_num), min_eq_left (by norm_num)]
    rw [e]
    intro h0
    have := Real.arccos_eq_zero.mp h0
    norm_num at this
  · have e : jp_angle_between [1, 0, 0] [-1, 0, 0]
        = Real.arccos (-1 / (1 * 1 + 1e-6)) := by
      simp only [jp_angle_between, jp_clip, hn, hn2, hd2]
      rw [max_eq_left (by norm_num), min_eq_left (by norm_num)]
    rw [e]
    intro h0
    have := Real.arccos_eq_pi.mp h0
    norm_num at this

/-- C6 (amended): for every nonzero `v`, `angle_between(v, v)` equals
`arccos(S/(S+1e-6))` with `S = |v|²` — strictly positive, approaching `0`
only as `S` grows — and `angle_between(v, -v)` equals `arccos(-(S/(S+1e-6)))`,
strictly below `π`; in general the result always lies in `[0, π]`. -/
theorem angle_between_self_and_neg (v : List ℝ) (h : 0 < sumSq v) :
    jp_angle_between v v = Real.arccos (sumSq v / (sumSq v + 1e-6)) ∧
    0 < jp_angle_between v v ∧
    jp_angle_between v (v.map (fun a => -a))
      = Real.arccos (-(sumSq v / (sumSq v + 1e-6))) ∧
    jp_angle_between v (v.map (fun a => -a)) < Real.pi ∧
    (∀ v1 v2 : List ℝ, 0 ≤ jp_angle_between v1 v2 ∧ jp_angle_between v1 v2 ≤ Real.pi) := by
  have hSe : (0 : ℝ) < sumSq v + 1e-6 := by linarith
  have hfrac0 : 0 ≤ sumSq v / (sumSq v + 1e-6) := div_nonneg h.le hSe.le
  have hfrac1 : sumSq v / (sumSq v + 1e-6) < 1 := (div_lt_one hSe).2 (by linarith)
  have hmul : jp_norm v * jp_norm v = sumSq v := by
    show Real.sqrt (sumSq v) * Real.sqrt (sumSq v) = sumSq v
    exact Real.mul_self_sqrt (sumSq_nonneg v)
  have hnormneg : jp_norm (v.map (fun a => -a)) = jp_norm v := by
    show Real.sqrt (sumSq (v.map (fun a => -a))) = Real.sqrt (sumSq v)
    rw [sumSq_map_neg]
  have e1 : jp_angle_between v v = Real.arccos (sumSq v / (sumSq v + 1e-6)) := by
    simp only [jp_angle_between, jp_clip]
    rw [jp_dot_self, hmul]
    rw [max_eq_left (by linarith), min_eq_left (by linarith)]
  have e2 : jp_angle_between v (v.map (fun a => -a))
      = Real.arccos (-(sumSq v / (sumSq v + 1e-6))) := by
    simp only [jp_angle_between, jp_clip]
    rw [jp_dot_map_neg, hnormneg, hmul, neg_div]
    rw [max_eq_left (by linarith), min_eq_left (by linarith)]
  refine ⟨e1, ?_, e2, ?_, fun v1 v2 => ⟨Real.arccos_nonneg _, Real.arccos_le_pi _⟩⟩
  · rw [e1]
    exact Real.arccos_pos.2 hfrac1
  · rw [e2]
    refine lt_of_le_of_ne (Real.arccos_le_pi _) (fun he => ?_)
    have := Real.arccos_eq_pi.mp he
    linarith

/-- Witness for the amended C6 at `v = [1,0,0]`. -/
theorem angle_between_self_and_neg_witness :
    0 < sumSq [(1 : ℝ), 0, 0] ∧
    (jp_angle_between [(1 : ℝ), 0, 0] [(1 : ℝ), 0, 0]
        = Real.arccos (sumSq [(1 : ℝ), 0, 0] / (sumSq [(1 : ℝ), 0, 0] + 1e-6)) ∧
     0 < jp_angle_between [(1 : ℝ), 0, 0] [(1 : ℝ), 0, 0] ∧
     jp_angle_between [(1 : ℝ), 0, 0] (([(1 : ℝ), 0, 0]).map (fun a => -a))
        = Real.arccos (-(sumSq [(1 : ℝ), 0, 0] / (sumSq [(1 : ℝ), 0, 0] + 1e-6))) ∧
     jp_angle_between [(1 : ℝ), 0, 0] (([(1 : ℝ), 0, 0]).map (fun a => -a)) < Real.pi ∧
     (∀ v1 v2 : List ℝ, 0 ≤ jp_angle_between v1 v2 ∧ jp_angle_between v1 v2 ≤ Real.pi)) :=
  ⟨by norm_num [sumSq],
   angle_between_self_and_neg [(1 : ℝ), 0, 0] (by norm_num [sumSq])⟩

set_option maxHeartbeats 1600000 in
/-- C3: on the golden scenario the component values the spec lists are indeed
`distance_reward = 3`, `safe_distance_reward = 1`, `velocity_towards_target
= 0`, `up_reward = 2`, and the action/angular-velocity penalties are 0 — but
`calc_reward` returns `32/25 = 1.28`, not the claimed `(30+1+0+2)/25 = 1.32`:
the code slices its "linear velocity" penalty inputs at block offsets 9–12,
which is the third row `[0,0,1]` of each upright rotation matrix, so
`linvel_quad_penalty = 0.1·(1+1) = 1/5` and `5·(1/5) = 1` is subtracted even
though every velocity is zero. -/
theorem golden_scenario_reward :
    distance_reward_fn [0, 0, 0] = 3 ∧
    safe_distance_reward_fn 0.15 = 1 ∧
    velocity_towards_target_fn [0, 0, 0] [0, 0, 0] = 0 ∧
    up_reward_fn 0 0 = 2 ∧
    smooth_action_penalty_fn [0, 0, 0, 0, 0, 0, 0, 0] [0, 0, 0, 0, 0, 0, 0, 0] = 0 ∧
    action_energy_penalty_fn [0, 0, 0, 0, 0, 0, 0, 0] = 0 ∧
    ang_vel_penalty_fn [0, 0, 0] [0, 0, 0] = 0 ∧
    linvel_quad_penalty_fn [0, 0, 1] [0, 0, 1] = 1 / 5 ∧
    calc_reward goldenObs 0 False False [0, 0, 0, 0, 0, 0, 0, 0] 0 0
      [0, 0, 0, 0, 0, 0, 0, 0] ⟨0, 0, 1⟩ snap0 = 32 / 25 ∧
    (32 : ℝ) / 25 ≠ 33 / 25 := by
  have hz : jp_norm [(0 : ℝ), 0, 0] = 0 := by simp [jp_norm]
  have h1 : jp_norm [(0 : ℝ), 0, 1] = 1 := by simp [jp_norm]
  have h015 : jp_norm [(0.15 : ℝ), 0, 0] = 0.15 := by
    have e : jp_norm [(0.15 : ℝ), 0, 0] = Real.sqrt (0.15 ^ 2) := by
      simp only [jp_norm, List.map_cons, List.map_nil, List.sum_cons, List.sum_nil]
      congr 1
      norm_num
    rw [e, Real.sqrt_sq (by norm_num : (0 : ℝ) ≤ 0.15)]
  have hdr : distance_reward_fn [0, 0, 0] = 3 := by
    have hget : ([(0 : ℝ), 0, 0].getD 2 0) = 0 := rfl
    simp only [distance_reward_fn, hget, hz]
    norm_num [Real.exp_zero]
  have hsafe : safe_distance_reward_fn 0.15 = 1 := by
    simp only [safe_distance_reward_fn, jp_clip]
    rw [show ((0.15 : ℝ) - 0.11) / (0.15 - 0.11) = 1 by norm_num,
      max_eq_left (by norm_num : (0 : ℝ) ≤ 1), min_self]
  have hvel : velocity_towards_target_fn [0, 0, 0] [0, 0, 0] = 0 := by
    have hd : jp_dot [(0 : ℝ), 0, 0] [(0 : ℝ), 0, 0] = 0 := by simp [jp_dot]
    simp only [velocity_towards_target_fn]
    rw [hd, zero_div]
  have hup : up_reward_fn 0 0 = 2 := by
    simp only [up_reward_fn]
    norm_num [Real.exp_zero]
  have hsm : smooth_action_penalty_fn [0, 0, 0, 0, 0, 0, 0, 0] [0, 0, 0, 0, 0, 0, 0, 0] = 0 := by
    norm_num [smooth_action_penalty_fn, jp_mean, max_thrust]
  have hen : action_energy_penalty_fn [0, 0, 0, 0, 0, 0, 0, 0] = 0 := by
    norm_num [action_energy_penalty_fn, jp_mean, max_thrust]
  have hav : ang_vel_penalty_fn [0, 0, 0] [0, 0, 0] = 0 := by
    simp only [ang_vel_penalty_fn, hz]
    norm_num
  have hlv : linvel_quad_penalty_fn [0, 0, 1] [0, 0, 1] = 1 / 5 := by
    simp only [linvel_quad_penalty_fn, h1]
    norm_num
  have s1 : pyslice (pyslice goldenObs 0 6) 0 3 = [0, 0, 0] := rfl
  have s2 : pyslice (pyslice goldenObs 0 6) 3 6 = [0, 0, 0] := rfl
  have s3 : pyslice (pyslice goldenObs 6 30) 0 3 = [0.15, 0, 0] := rfl
  have s4 : pyslice (pyslice goldenObs 30 54) 0 3 = [0, 0, 0] := rfl
  have s5 : pyslice (pyslice goldenObs 6 30) 15 18 = [0, 0, 0] := rfl
  have s6 : pyslice (pyslice goldenObs 30 54) 15 18 = [0, 0, 0] := rfl
  have s7 : pyslice (pyslice goldenObs 6 30) 9 12 = [0, 0, 1] := rfl
  have s8 : pyslice (pyslice goldenObs 30 54) 9 12 = [0, 0, 1] := rfl
  have hq : jp_norm (List.zipWith (fun a b => a - b) [(0.15 : ℝ), 0, 0] [(0 : ℝ), 0, 0])
      = 0.15 := by
    have hl : List.zipWith (fun a b => a - b) [(0.15 : ℝ), 0, 0] [(0 : ℝ), 0, 0]
        = [0.15, 0, 0] := by norm_num
    rw [hl, h015]
  have hcalc : calc_reward goldenObs 0 False False [0, 0, 0, 0, 0, 0, 0, 0] 0 0
      [0, 0, 0, 0, 0, 0, 0, 0] ⟨0, 0, 1⟩ snap0 = 32 / 25 := by
    simp only [calc_reward, s1, s2, s3, s4, s5, s6, s7, s8]
    rw [hq, hz, hdr, hsafe, hvel, hup, hsm, hen, hav, hlv]
    simp only [if_false]
    norm_num
  exact ⟨hdr, hsafe, hvel, hup, hsm, hen, hav, hlv, hcalc, by norm_num⟩
